import Mathlib

/-!
Verification development for the v2weatherstation repository.

Shallow embedding of the cache/refresh core in
`WeatherStation/weather_station/data_manager.py`, of the coordinate
handling in `WeatherStation/weather_station/weather_api.py`, and of the
`/api/data/update` route handler in
`WeatherStation/weather_station/index.py`.

Modelling conventions:
- JSON values are modelled by the inductive `JValue`; Python `None`
  inside a JSON payload is `JValue.null`.
- Wall-clock times are natural numbers of seconds (`time.time()`); Nat
  truncated subtraction agrees with the float subtraction in every
  branch the code takes (a negative age compares below every threshold,
  as does 0).
- Network outcomes of a single HTTP request are the inductive
  `FetchResult`; the embedding of a fetching function takes the outcome
  as an explicit oracle argument and is otherwise pure.
- Python dicts are association lists `List (String × _)` in insertion
  order; dict truthiness is non-emptiness, `is not None` is `Option.isSome`.
-/

/-- JSON value, as produced by `response.json()`. -/
inductive JValue where
  | null
  | num (n : Int)
  | str (s : String)
  | arr (xs : List JValue)
  | obj (fields : List (String × JValue))

/-- Python truthiness of a JSON value (`if data:`): `None`, `0`, the empty
string, the empty list and the empty dict are falsy. -/
def jTruthy : JValue → Bool
  | .null => false
  | .num n => n != 0
  | .str s => s != ""
  | .arr xs => !xs.isEmpty
  | .obj fields => !fields.isEmpty

/-- Encoding of one entry of geolocations.json: either an ordered pair
`[latitude, longitude]` or a named-field object
`{"latitude": .., "longitude": .., ...}` (numeric fields only: the extra
fields of the object encoding that are strings in the data are irrelevant
to the coordinate claims and are modelled by their keys appearing in
`fields`). -/
inductive CoordsEnc where
  | pair (lat lon : Int)
  | obj (fields : List (String × Int))
deriving DecidableEq

/-- A Python value that can end up bound to `latitude` / `longitude` after
the unpacking statement in `_fetch_live_weather_data`. -/
inductive PyValue where
  | num (n : Int)
  | str (s : String)
deriving DecidableEq

/-- Embedding of the statement `latitude, longitude = coordinates` in
`_fetch_live_weather_data` (data_manager.py line 297). Unpacking a
two-element list yields its elements; unpacking a dict iterates its KEYS
in insertion order, so a two-key object yields the key strings, and an
object with any other number of keys raises ValueError (modelled as
`none`, caught by the enclosing `except`). -/
def unpackCoordinates : CoordsEnc → Option (PyValue × PyValue)
  | .pair lat lon => some (.num lat, .num lon)
  | .obj fields =>
    match fields with
    | [f1, f2] => some (.str f1.1, .str f2.1)
    | _ => none

/-- Embedding of the coordinate normalization in
`WeatherAPI.get_weather_for_multiple_cities` (weather_api.py lines 88-95):
a list of length ≥ 2 yields its first two elements; a dict yields
`coords.get` of the two named fields (which is `None` when absent). -/
def coords_from_entry : CoordsEnc → Option (Option Int × Option Int)
  | .pair lat lon => some (some lat, some lon)
  | .obj fields => some (List.lookup ("latitude") fields, List.lookup ("longitude") fields)

/-- Outcome of the single HTTP request issued for one location: the
decoded body on success, or the failure class raised by `requests`
(`Timeout`, `raise_for_status` on an error status, or a JSON decode
error on a malformed body). -/
inductive FetchResult where
  | ok (d : JValue)
  | timeout
  | httpError (status : Nat)
  | malformed

/-- Embedding of the inner cleaning loop of `_fetch_live_weather_data`
(data_manager.py lines 343-348): each element of an hourly series is
appended unchanged, `None` staying `None` at its position. -/
def cleanValues (values : List JValue) : List JValue :=
  values.map (fun v =>
    match v with
    | .null => .null
    | w => w)

/-- Embedding of the per-parameter loop over `data["hourly"].items()`
(data_manager.py lines 340-351): list values go through `cleanValues`,
non-list values are kept as they are. -/
def cleanHourlyFields (fields : List (String × JValue)) : List (String × JValue) :=
  fields.map (fun kv =>
    match kv.2 with
    | .arr xs => (kv.1, .arr (cleanValues xs))
    | _ => kv)

/-- Replace the value stored under a key of a dict, keeping insertion
order (the effect of the assignment `data["hourly"] = cleaned_hourly`). -/
def setField (fields : List (String × JValue)) (key : String) (v : JValue) : List (String × JValue) :=
  fields.map (fun kv => if kv.1 = key then (kv.1, v) else kv)

/-- Embedding of the null-cleaning block of `_fetch_live_weather_data`
(data_manager.py lines 337-352) applied to the decoded body: when the
body is an object with an object under "hourly", that sub-object is
rebuilt by `cleanHourlyFields`; when "hourly" holds a non-dict value the
call `.items()` raises (modelled `none`, caught by the enclosing
`except`); otherwise the body passes through unchanged. -/
def cleanData : JValue → Option JValue
  | .obj fields =>
    match List.lookup ("hourly") fields with
    | some (.obj hf) => some (.obj (setField fields ("hourly") (.obj (cleanHourlyFields hf))))
    | some _ => none
    | none => some (.obj fields)
  | other => some other

/-- Embedding of `WeatherDataManager._fetch_live_weather_data`
(data_manager.py lines 292-358) for one location: unpack the
coordinates, issue the request (outcome supplied by the oracle), clean
the body. Every raised exception — unpack ValueError, timeout, HTTP
error status, JSON decode error — is caught by the function-wide
`except` and turned into `None`; no exception reaches the caller. -/
def fetch_live_weather_data (coords : CoordsEnc) (outcome : FetchResult) : Option JValue :=
  match unpackCoordinates coords with
  | none => none
  | some _ =>
    match outcome with
    | .ok d => cleanData d
    | .timeout => none
    | .httpError _ => none
    | .malformed => none

/-- Result of one worker of `_fetch_data_in_batches`
(`fetch_location_data`, data_manager.py lines 255-266): the entry stored
into the shared dict, or nothing when the fetch returned a falsy value
or raised. -/
def storedResult (net : String → FetchResult) (cc : String × CoordsEnc) : Option (String × JValue) :=
  match fetch_live_weather_data cc.2 (net cc.1) with
  | some d => if jTruthy d then some (cc.1, d) else none
  | none => none

/-- Embedding of `WeatherDataManager._fetch_data_in_batches`
(data_manager.py lines 247-279). The thread pool runs one
`fetch_location_data` per location and each successful worker stores its
own key under the lock; the resulting dict is modelled as the
accumulation of the per-location stored entries (the claims about it
concern the key set, which does not depend on completion order). -/
def fetch_data_in_batches (net : String → FetchResult) (locations : List (String × CoordsEnc)) : List (String × JValue) :=
  locations.filterMap (storedResult net)

/-- Mutable state of a `WeatherDataManager` instance
(data_manager.py lines 26-32): `_last_update_check`, `_data_cache`,
`_cache_timestamp`. There is no further shared state — in particular no
refresh-in-flight flag exists. -/
structure ManagerState where
  lastUpdateCheck : Nat
  dataCache : Option (List (String × JValue))
  cacheTimestamp : Nat

/-- The state built by `WeatherDataManager.__init__`. -/
def initialState : ManagerState :=
  { lastUpdateCheck := 0, dataCache := none, cacheTimestamp := 0 }

/-- Result of `load_weather_data`: the returned value, the state after
the call, and whether the call reached `_fetch_data_in_batches`
(outbound network I/O on the calling path). -/
structure LoadResult where
  result : Option (List (String × JValue))
  state : ManagerState
  fetchIssued : Bool

/-- Embedding of `WeatherDataManager.load_weather_data`
(data_manager.py lines 212-245): return the cache when it exists and is
younger than 900 seconds; otherwise load the locations (supplied as an
argument, the file read), give up when none, otherwise fetch a batch,
cache and return it when non-empty, and return `None` leaving the cache
untouched when the batch is empty. -/
def load_weather_data (s : ManagerState) (now : Nat) (locations : List (String × CoordsEnc)) (net : String → FetchResult) : LoadResult :=
  if s.dataCache.isSome && decide (now - s.cacheTimestamp < 900) then
    { result := s.dataCache, state := s, fetchIssued := false }
  else if locations.isEmpty then
    { result := none, state := s, fetchIssued := false }
  else
    let live := fetch_data_in_batches net locations
    if live.isEmpty then
      { result := none, state := s, fetchIssued := true }
    else
      { result := some live
        state := { s with dataCache := some live, cacheTimestamp := now }
        fetchIssued := true }

/-- Result of `refresh_cache`: the returned boolean, the state after the
call, and whether the call reached `_fetch_data_in_batches`. -/
structure RefreshResult where
  ret : Bool
  state : ManagerState
  fetchIssued : Bool

/-- Embedding of `WeatherDataManager.refresh_cache`
(data_manager.py lines 193-210): unconditionally load the locations and
fetch a batch — no state is consulted before fetching — then cache the
batch and return True when it is non-empty, else return False leaving
the cache untouched. -/
def refresh_cache (s : ManagerState) (now : Nat) (locations : List (String × CoordsEnc)) (net : String → FetchResult) : RefreshResult :=
  if locations.isEmpty then
    { ret := false, state := s, fetchIssued := false }
  else
    let fresh := fetch_data_in_batches net locations
    if fresh.isEmpty then
      { ret := false, state := s, fetchIssued := true }
    else
      { ret := true
        state := { s with dataCache := some fresh, cacheTimestamp := now }
        fetchIssued := true }

/-- Embedding of the cache-refresh block of the background loop
`WeatherDataManager._update_loop` (data_manager.py lines 70-84): when a
cache exists and is older than 600 seconds, reload the locations and
fetch a batch, replacing the cache only when the batch is non-empty; any
failure leaves the state unchanged. -/
def update_loop_refresh (s : ManagerState) (now : Nat) (locations : List (String × CoordsEnc)) (net : String → FetchResult) : ManagerState :=
  if s.dataCache.isSome && decide (600 < now - s.cacheTimestamp) then
    if locations.isEmpty then s
    else
      let fresh := fetch_data_in_batches net locations
      if fresh.isEmpty then s
      else { s with dataCache := some fresh, cacheTimestamp := now }
  else s

/-- One atomic step of a refresh trigger as it appears in the body of
`refresh_cache` (data_manager.py lines 193-210), in program order: read
the location file, issue the batch fetch, conditionally write the shared
cache fields. The body contains no read of any refresh-in-flight flag —
no such field exists on `ManagerState` — and no branch on shared cache
state occurs before the fetch. -/
inductive Step where
  | loadLocs
  | fetchBatch
  | writeCache
deriving DecidableEq

/-- The straight-line step sequence one refresh trigger executes
(assuming a non-empty location file, so the early return is not taken):
the program is the same whatever the shared state holds. -/
def refreshProg : List Step := [.loadLocs, .fetchBatch, .writeCache]

/-- Fuel-indexed worker for `interleavings`; the fuel is structural so
the function evaluates inside the kernel, and it is always called with
fuel at least the sum of the lengths, which the recursion never
exhausts. -/
def interleavingsAux : Nat → List Step → List Step → List (List Step)
  | 0, xs, ys => [xs ++ ys]
  | _ + 1, [], ys => [ys]
  | _ + 1, x :: xs, [] => [x :: xs]
  | n + 1, x :: xs, y :: ys =>
    (interleavingsAux n xs (y :: ys)).map (fun tr => x :: tr) ++
      (interleavingsAux n (x :: xs) ys).map (fun tr => y :: tr)

/-- All interleavings of the step sequences of two concurrently running
triggers (each trigger keeps its own program order; steps of the two may
alternate arbitrarily). -/
def interleavings (xs ys : List Step) : List (List Step) :=
  interleavingsAux (xs.length + ys.length) xs ys

/-- The cache block of the dict returned by
`WeatherDataManager.get_status` (data_manager.py lines 361-387):
`has_cache`, `cached_locations`, `cache_age_minutes`, `cache_fresh`. -/
structure CacheStatus where
  has_cache : Bool
  cached_locations : Nat
  cache_age_minutes : ℚ
  cache_fresh : Bool
deriving DecidableEq

/-- Embedding of the cache-status computation in
`WeatherDataManager.get_status` (data_manager.py lines 365-386):
`cache_age_minutes` and `cached_locations` start at 0 and are only
recomputed when the cache dict is truthy AND the timestamp is positive;
`has_cache` is `_data_cache is not None`; `cache_fresh` compares the age
in minutes against 15. The reported age is `round(minutes, 1)` in the
Python; the rounding is display formatting and is exact at every value a
claim looks at (0), so the unrounded rational is stored. -/
def get_status_cache (s : ManagerState) (now : Nat) : CacheStatus :=
  let truthy : Bool :=
    (match s.dataCache with
     | some d => !d.isEmpty
     | none => false) && decide (0 < s.cacheTimestamp)
  let ageMinutes : ℚ := if truthy then ((now - s.cacheTimestamp : Nat) : ℚ) / 60 else 0
  { has_cache := s.dataCache.isSome
    cached_locations := if truthy then (s.dataCache.getD []).length else 0
    cache_age_minutes := ageMinutes
    cache_fresh := decide (ageMinutes < 15) }

/-- The JSON body returned by the `/api/data/update` route handler. -/
structure UpdateResponse where
  success : Bool
  message : String
deriving DecidableEq

/-- Embedding of `WeatherDataManager.force_update` together with
`_perform_update` (data_manager.py lines 151-191): the returned boolean
is the outcome of running the update script (False when the script is
missing, exits non-zero, or times out; True when it exits 0), supplied
here as the oracle argument. -/
def force_update (scriptSucceeded : Bool) : Bool :=
  scriptSucceeded

/-- Embedding of the `force_data_update` handler for
`POST /api/data/update` (index.py lines 149-170), paired with whether
the handler invoked `force_update`. As written, the handler returns a
constant success body on its first statement; the call
`self.data_manager.force_update()` and the conditional response exist
only inside a commented-out block after the return, so no update is
invoked and the response does not depend on any update outcome. -/
def force_data_update : UpdateResponse × Bool :=
  ({ success := true, message := ("Data update completed successfully") }, false)

/-! Concrete inputs used by witnesses and counterexamples. -/

/-- A one-entry location table with the ordered-pair encoding. -/
def locs1 : List (String × CoordsEnc) := [(("Paris"), .pair 48 2)]

/-- A two-entry location table. -/
def locs2 : List (String × CoordsEnc) := [(("Paris"), .pair 48 2), (("Lyon"), .pair 45 4)]

/-- A sample decoded body with no hourly block. -/
def sampleBody : JValue := .obj [(("x"), .num 1)]

/-- A network oracle on which every request succeeds. -/
def netOK : String → FetchResult := fun _ => .ok sampleBody

/-- A network oracle on which every request times out. -/
def netBad : String → FetchResult := fun _ => .timeout

/-- A network oracle that succeeds for Paris and answers HTTP 500
elsewhere. -/
def netMix : String → FetchResult := fun city =>
  if city = ("Paris") then .ok sampleBody else .httpError 500

/-- A manager state holding a populated cache written at time 100. -/
def s1 : ManagerState :=
  { lastUpdateCheck := 0, dataCache := some [(("Paris"), sampleBody)], cacheTimestamp := 100 }

/-- The fully overlapped interleaving of two refresh triggers: both load
locations, then both issue their batch fetch, then both write. -/
def tr0 : List Step :=
  [.loadLocs, .loadLocs, .fetchBatch, .fetchBatch, .writeCache, .writeCache]

/-! Theorems for the claims. -/

/-- Claim C9: the null-cleaning step of `_fetch_live_weather_data` is the
identity on every hourly series — it preserves length, every position,
and in particular every null marker at its original position, for every
variable of the hourly block. -/
theorem cleaning_preserves_series :
    ∀ (values : List JValue) (fields : List (String × JValue)),
      cleanValues values = values ∧
      (cleanValues values).length = values.length ∧
      (∀ i, (cleanValues values).get? i = values.get? i) ∧
      cleanHourlyFields fields = fields := by
  have hfun : (fun v : JValue => match v with | .null => JValue.null | w => w) = id := by
    funext v
    cases v <;> rfl
  have h1 : ∀ vs : List JValue, cleanValues vs = vs := by
    intro vs
    unfold cleanValues
    rw [hfun, List.map_id]
  intro values fields
  refine ⟨h1 values, by rw [h1 values], fun i => by rw [h1 values], ?_⟩
  unfold cleanHourlyFields
  have hkv : ∀ kv : String × JValue,
      (match kv.2 with
       | .arr xs => (kv.1, JValue.arr (cleanValues xs))
       | _ => kv) = kv := by
    intro kv
    obtain ⟨k, v⟩ := kv
    cases v <;> simp [h1]
  calc fields.map _ = fields.map id := by
        refine List.map_congr_left ?_
        intro kv _
        exact hkv kv
    _ = fields := List.map_id fields

/-- Claim C10: when no snapshot has ever been cached (the `_data_cache`
field is `None`), `get_status` reports a cache age of 0 minutes and 0
cached locations, hence `cache_fresh` is true although `has_cache` is
false. -/
theorem status_empty_cache_reports_fresh :
    ∀ (s : ManagerState) (now : Nat), s.dataCache = none →
      get_status_cache s now =
        { has_cache := false, cached_locations := 0, cache_age_minutes := 0, cache_fresh := true } := by
  intro s now h
  simp [get_status_cache, h]

/-- Witness for `status_empty_cache_reports_fresh` at the state built by
`__init__` and an arbitrary concrete clock value. -/
theorem status_empty_cache_reports_fresh_witness :
    get_status_cache initialState 1234 =
      { has_cache := false, cached_locations := 0, cache_age_minutes := 0, cache_fresh := true } :=
  status_empty_cache_reports_fresh initialState 1234 rfl

/-- Claim C5: the `/api/data/update` handler returns a constant success
body. Its `success` field is `true` and `force_update` is never invoked,
so when the update would have failed (`force_update false = false`) the
reported `success` still differs from the refresh result. The call into
the manager survives only in a commented-out block after the `return`
statement, contradicting the documented behaviour of the endpoint. -/
theorem update_endpoint_ignores_refresh :
    force_data_update.1.success = true ∧
    force_data_update.2 = false ∧
    force_update false = false ∧
    force_data_update.1.success ≠ force_update false := by
  refine ⟨rfl, rfl, rfl, ?_⟩
  decide

/-- Claim C7 (amended): every per-location failure — timeout, HTTP error
of any status, malformed body — is caught inside
`_fetch_live_weather_data` and mapped to the single value `None`; the
fetcher never raises to its caller, but the failure class and the HTTP
status are not represented in the returned value: all failures return
the same `None`. -/
theorem fetch_failures_return_none :
    ∀ (coords : CoordsEnc) (st st' : Nat),
      fetch_live_weather_data coords .timeout = none ∧
      fetch_live_weather_data coords (.httpError st) = none ∧
      fetch_live_weather_data coords .malformed = none ∧
      fetch_live_weather_data coords (.httpError st) = fetch_live_weather_data coords (.httpError st') ∧
      fetch_live_weather_data coords .timeout = fetch_live_weather_data coords (.httpError st) := by
  intro coords st st'
  cases h : unpackCoordinates coords <;> simp [fetch_live_weather_data, h]

/-- Counterexample to claim C7 as stated: distinct failure classes and
distinct HTTP statuses produce identical results — the single value
`None` — so no failure is classified as Timeout, HttpError(status) or
MalformedResponse in the returned error value. -/
theorem fetch_failures_indistinct :
    fetch_live_weather_data (.pair 48 2) (.httpError 500) =
      fetch_live_weather_data (.pair 48 2) (.httpError 404) ∧
    fetch_live_weather_data (.pair 48 2) .timeout =
      fetch_live_weather_data (.pair 48 2) (.httpError 500) ∧
    fetch_live_weather_data (.pair 48 2) .malformed =
      fetch_live_weather_data (.pair 48 2) .timeout ∧
    fetch_live_weather_data (.pair 48 2) .timeout = none :=
  ⟨rfl, rfl, rfl, rfl⟩

/-- Claim C8 (amended): the `WeatherAPI` client path accepts both
coordinate encodings and yields the numeric pair for each, but the data
manager fetch path only handles the ordered-pair encoding: unpacking a
named-field object binds the two key strings when the object has exactly
two fields and raises ValueError otherwise, so object-encoded entries
are never turned into numeric coordinates there. -/
theorem coords_two_encodings_split :
    ∀ (lat lon : Int) (fields : List (String × Int)) (f1 f2 f3 : String × Int) (rest : List (String × Int)),
      coords_from_entry (.pair lat lon) = some (some lat, some lon) ∧
      coords_from_entry (.obj fields) =
        some (List.lookup ("latitude") fields, List.lookup ("longitude") fields) ∧
      unpackCoordinates (.pair lat lon) = some (.num lat, .num lon) ∧
      unpackCoordinates (.obj [f1, f2]) = some (.str f1.1, .str f2.1) ∧
      unpackCoordinates (.obj []) = none ∧
      unpackCoordinates (.obj [f1]) = none ∧
      unpackCoordinates (.obj (f1 :: f2 :: f3 :: rest)) = none := by
  intro lat lon fields f1 f2 f3 rest
  exact ⟨rfl, rfl, rfl, rfl, rfl, rfl, rfl⟩

/-- Counterexample to claim C8 as stated: the data manager fetch path
does not normalize the named-field object encoding — a two-field object
unpacks to the key strings, not to the numbers the equivalent ordered
pair unpacks to, and an object with an extra field fails to unpack at
all. -/
theorem coords_object_not_normalized :
    unpackCoordinates (.obj [(("latitude"), 48), (("longitude"), 2)]) =
      some (.str ("latitude"), .str ("longitude")) ∧
    unpackCoordinates (.pair 48 2) = some (.num 48, .num 2) ∧
    unpackCoordinates (.obj [(("latitude"), 48), (("longitude"), 2)]) ≠
      unpackCoordinates (.pair 48 2) ∧
    unpackCoordinates (.obj [(("latitude"), 48), (("longitude"), 2), (("elevation"), 100)]) = none := by
  refine ⟨rfl, rfl, ?_, rfl⟩
  decide

/-- Claim C3 (amended): `load_weather_data` issues the batch fetch — and
with it outbound network I/O on the calling path — exactly when the
cache is absent or at least 900 seconds old and the location table is
non-empty; only a present-and-fresh cache (or an empty location table)
is returned without fetching. -/
theorem read_fetches_iff_stale :
    ∀ (s : ManagerState) (now : Nat) (locations : List (String × CoordsEnc)) (net : String → FetchResult),
      (load_weather_data s now locations net).fetchIssued =
        (!(s.dataCache.isSome && decide (now - s.cacheTimestamp < 900)) && !locations.isEmpty) := by
  intro s now locations net
  by_cases h1 : (s.dataCache.isSome && decide (now - s.cacheTimestamp < 900)) = true
  · simp [load_weather_data, h1]
  · by_cases h2 : locations.isEmpty = true
    · simp [load_weather_data, h1, h2]
    · by_cases h3 : (fetch_data_in_batches net locations).isEmpty = true
      · simp [load_weather_data, h1, h2, h3]
      · simp [load_weather_data, h1, h2, h3]

/-- Counterexample to claim C3 as stated: reads do block on network I/O
when the cache is cold — starting from the initial (empty-cache) state,
a read issues the batch fetch on the calling path, both when the
provider is up and when every request times out. -/
theorem read_blocks_counterexample :
    (load_weather_data initialState 1000 locs1 netBad).fetchIssued = true ∧
    (load_weather_data initialState 1000 locs1 netOK).fetchIssued = true :=
  ⟨rfl, rfl⟩

/-- Claim C6: a populated cache younger than the 900-second (15-minute)
freshness window is returned unchanged by a read, with no fetch and no
state change; once the age reaches the window, the next read-path
freshness check issues a refetch that (when the batch is non-empty)
replaces the snapshot and its timestamp. -/
theorem freshness_window_behavior :
    ∀ (s : ManagerState) (now : Nat) (locations : List (String × CoordsEnc)) (net : String → FetchResult),
      (s.dataCache.isSome = true → now - s.cacheTimestamp < 900 →
        load_weather_data s now locations net =
          { result := s.dataCache, state := s, fetchIssued := false }) ∧
      (¬ (now - s.cacheTimestamp < 900) → locations.isEmpty = false →
        (fetch_data_in_batches net locations).isEmpty = false →
          (load_weather_data s now locations net).fetchIssued = true ∧
          (load_weather_data s now locations net).state.dataCache =
            some (fetch_data_in_batches net locations) ∧
          (load_weather_data s now locations net).state.cacheTimestamp = now ∧
          (load_weather_data s now locations net).result =
            some (fetch_data_in_batches net locations)) := by
  intro s now locations net
  constructor
  · intro h1 h2
    simp [load_weather_data, h1, h2]
  · intro h1 h2 h3
    simp [load_weather_data, h1, h2, h3]

/-- Witness for `freshness_window_behavior`: at age 400 the populated
cache of `s1` is served unchanged; at age 1900 with a reachable provider
the read replaces the snapshot with the freshly fetched batch. -/
theorem freshness_window_behavior_witness :
    (load_weather_data s1 500 locs1 netOK =
      { result := s1.dataCache, state := s1, fetchIssued := false }) ∧
    ((load_weather_data s1 2000 locs1 netOK).fetchIssued = true ∧
      (load_weather_data s1 2000 locs1 netOK).state.dataCache =
        some (fetch_data_in_batches netOK locs1) ∧
      (load_weather_data s1 2000 locs1 netOK).state.cacheTimestamp = 2000 ∧
      (load_weather_data s1 2000 locs1 netOK).result =
        some (fetch_data_in_batches netOK locs1)) :=
  ⟨(freshness_window_behavior s1 500 locs1 netOK).1 rfl (by decide),
   (freshness_window_behavior s1 2000 locs1 netOK).2 (by decide) rfl rfl⟩

/-- Claim C2: a refresh attempt whose batch returns zero successes
leaves the cached snapshot and its timestamp unchanged on every refresh
path (read path, forced refresh, background loop), and the forced
refresh reports failure; moreover a populated cache never becomes empty
through any of these paths, whatever the batch returns. -/
theorem empty_batch_preserves_cache :
    ∀ (s : ManagerState) (now : Nat) (locations : List (String × CoordsEnc)) (net : String → FetchResult),
      (fetch_data_in_batches net locations = [] →
        (load_weather_data s now locations net).state = s ∧
        (refresh_cache s now locations net).state = s ∧
        (refresh_cache s now locations net).ret = false ∧
        update_loop_refresh s now locations net = s) ∧
      (s.dataCache.isSome = true →
        (load_weather_data s now locations net).state.dataCache.isSome = true ∧
        (refresh_cache s now locations net).state.dataCache.isSome = true ∧
        (update_loop_refresh s now locations net).dataCache.isSome = true) := by
  intro s now locations net
  constructor
  · intro h
    refine ⟨?_, ?_, ?_, ?_⟩
    · by_cases h1 : (s.dataCache.isSome && decide (now - s.cacheTimestamp < 900)) = true
      · simp [load_weather_data, h1]
      · by_cases h2 : locations.isEmpty = true
        · simp [load_weather_data, h1, h2]
        · simp [load_weather_data, h1, h2, h]
    · by_cases h2 : locations.isEmpty = true
      · simp [refresh_cache, h2]
      · simp [refresh_cache, h2, h]
    · by_cases h2 : locations.isEmpty = true
      · simp [refresh_cache, h2]
      · simp [refresh_cache, h2, h]
    · by_cases h1 : (s.dataCache.isSome && decide (600 < now - s.cacheTimestamp)) = true
      · by_cases h2 : locations.isEmpty = true
        · simp [update_loop_refresh, h1, h2]
        · simp [update_loop_refresh, h1, h2, h]
      · simp [update_loop_refresh, h1]
  · intro hs
    refine ⟨?_, ?_, ?_⟩
    · by_cases h1 : now - s.cacheTimestamp < 900
      · simp [load_weather_data, h1, hs]
      · by_cases h2 : locations.isEmpty = true
        · simp [load_weather_data, h1, h2, hs]
        · by_cases h3 : (fetch_data_in_batches net locations).isEmpty = true
          · simp [load_weather_data, h1, h2, h3, hs]
          · simp [load_weather_data, h1, h2, h3]
    · by_cases h2 : locations.isEmpty = true
      · simp [refresh_cache, h2, hs]
      · by_cases h3 : (fetch_data_in_batches net locations).isEmpty = true
        · simp [refresh_cache, h2, h3, hs]
        · simp [refresh_cache, h2, h3]
    · by_cases h1 : 600 < now - s.cacheTimestamp
      · by_cases h2 : locations.isEmpty = true
        · simp [update_loop_refresh, h1, h2, hs]
        · by_cases h3 : (fetch_data_in_batches net locations).isEmpty = true
          · simp [update_loop_refresh, h1, h2, h3, hs]
          · simp [update_loop_refresh, h1, h2, h3, hs]
      · simp [update_loop_refresh, h1, hs]

/-- Witness for `empty_batch_preserves_cache`: with every request timing
out, the batch over `locs1` is empty and all three refresh paths leave
the populated state `s1` — taken at age 1900, past both staleness
thresholds — unchanged, the forced refresh returning False. -/
theorem empty_batch_preserves_cache_witness :
    ((load_weather_data s1 2000 locs1 netBad).state = s1 ∧
      (refresh_cache s1 2000 locs1 netBad).state = s1 ∧
      (refresh_cache s1 2000 locs1 netBad).ret = false ∧
      update_loop_refresh s1 2000 locs1 netBad = s1) ∧
    ((load_weather_data s1 2000 locs1 netBad).state.dataCache.isSome = true ∧
      (refresh_cache s1 2000 locs1 netBad).state.dataCache.isSome = true ∧
      (update_loop_refresh s1 2000 locs1 netBad).dataCache.isSome = true) :=
  ⟨(empty_batch_preserves_cache s1 2000 locs1 netBad).1 rfl,
   (empty_batch_preserves_cache s1 2000 locs1 netBad).2 rfl⟩

/-- Claim C1 (amended): refresh triggers are not coalesced. Every
interleaving of two overlapping refresh triggers executes two batch
fetches, and the boolean returned by `refresh_cache` — as well as
whether it fetches — is entirely independent of the manager state, so no
trigger can observe an in-flight refresh and return False: no in-flight
flag exists. -/
theorem refresh_no_coalescing :
    (∀ tr ∈ interleavings refreshProg refreshProg, tr.count Step.fetchBatch = 2) ∧
    (∀ (s s' : ManagerState) (now now' : Nat) (locations : List (String × CoordsEnc)) (net : String → FetchResult),
      (refresh_cache s now locations net).ret = (refresh_cache s' now' locations net).ret ∧
      (refresh_cache s now locations net).fetchIssued =
        (refresh_cache s' now' locations net).fetchIssued) := by
  constructor
  · decide
  · intro s s' now now' locations net
    by_cases h1 : locations.isEmpty = true
    · simp [refresh_cache, h1]
    · by_cases h2 : (fetch_data_in_batches net locations).isEmpty = true
      · simp [refresh_cache, h1, h2]
      · simp [refresh_cache, h1, h2]

/-- Witness for `refresh_no_coalescing` at the fully overlapped
interleaving `tr0`. -/
theorem refresh_no_coalescing_witness :
    tr0.count Step.fetchBatch = 2 :=
  refresh_no_coalescing.1 tr0 (by decide)

/-- Counterexample to claim C1 as stated: `tr0` — both triggers fetch
while the other is mid-flight — is a legal interleaving and contains two
batch-fetch steps, and a trigger started from a state in which another
refresh has not yet published (the initial state) still issues its fetch
and returns True when its own batch succeeds, instead of observing an
in-flight flag and returning False. -/
theorem refresh_overlap_counterexample :
    tr0 ∈ interleavings refreshProg refreshProg ∧
    tr0.count Step.fetchBatch = 2 ∧
    (refresh_cache initialState 2000 locs1 netOK).ret = true ∧
    (refresh_cache initialState 2000 locs1 netOK).fetchIssued = true :=
  ⟨by decide, by decide, rfl, rfl⟩

/-- Characterization of the entry one batch worker stores: an entry is
produced exactly when the per-location fetch returned a truthy value,
and it pairs the worker city with that value. -/
theorem storedResult_eq_some (net : String → FetchResult) (cc : String × CoordsEnc) (p : String × JValue) :
    storedResult net cc = some p ↔
      ∃ d, fetch_live_weather_data cc.2 (net cc.1) = some d ∧ jTruthy d = true ∧ p = (cc.1, d) := by
  unfold storedResult
  cases h : fetch_live_weather_data cc.2 (net cc.1) with
  | none => simp
  | some d =>
    dsimp only
    by_cases ht : jTruthy d = true
    · rw [if_pos ht]
      constructor
      · intro hp
        refine ⟨d, rfl, ht, ?_⟩
        injection hp with hp
        rw [hp]
      · rintro ⟨d2, hd2, ht2, hp⟩
        injection hd2 with hd2
        subst hd2
        rw [hp]
    · rw [if_neg ht]
      constructor
      · intro hp
        exact Option.noConfusion hp
      · rintro ⟨d2, hd2, ht2, hp⟩
        injection hd2 with hd2
        subst hd2
        exact absurd ht2 ht

/-- Claim C4: the key set of `_fetch_data_in_batches` is a subset of the
key set of the location table and contains exactly the locations whose
fetch succeeded (returned a truthy record); failed locations are simply
omitted, and the orchestrator is a total function — the worker-level
`except` means no exception escapes it. -/
theorem batch_keys_exact :
    ∀ (net : String → FetchResult) (locations : List (String × CoordsEnc)) (c : String),
      ((c ∈ (fetch_data_in_batches net locations).map Prod.fst) ↔
        (∃ enc, (c, enc) ∈ locations ∧
          ∃ d, fetch_live_weather_data enc (net c) = some d ∧ jTruthy d = true)) ∧
      ((fetch_data_in_batches net locations).map Prod.fst ⊆ locations.map Prod.fst) := by
  intro net locations c
  have hmem : ∀ a : String,
      a ∈ (fetch_data_in_batches net locations).map Prod.fst ↔
        ∃ cc, cc ∈ locations ∧ cc.1 = a ∧
          ∃ d, fetch_live_weather_data cc.2 (net cc.1) = some d ∧ jTruthy d = true := by
    intro a
    unfold fetch_data_in_batches
    simp only [List.mem_map, List.mem_filterMap]
    constructor
    · rintro ⟨p, ⟨cc, hcc, hstored⟩, hfst⟩
      rw [storedResult_eq_some] at hstored
      obtain ⟨d, hd, ht, hp⟩ := hstored
      subst hp
      exact ⟨cc, hcc, hfst, d, hd, ht⟩
    · rintro ⟨cc, hcc, ha, d, hd, ht⟩
      refine ⟨(cc.1, d), ⟨cc, hcc, ?_⟩, ha⟩
      rw [storedResult_eq_some]
      exact ⟨d, hd, ht, rfl⟩
  constructor
  · rw [hmem c]
    constructor
    · rintro ⟨⟨c1, enc⟩, hcc, ha, d, hd, ht⟩
      dsimp at ha hd
      subst ha
      exact ⟨enc, hcc, d, hd, ht⟩
    · rintro ⟨enc, henc, d, hd, ht⟩
      exact ⟨(c, enc), henc, rfl, d, hd, ht⟩
  · intro a ha
    rw [hmem a] at ha
    obtain ⟨cc, hcc, hfst, -⟩ := ha
    rw [List.mem_map]
    exact ⟨cc, hcc, hfst⟩

/-- Witness for `batch_keys_exact`: on a two-location table where the
provider answers Paris and returns HTTP 500 for Lyon, Paris is in the
result key set and Lyon is not, and the key set sits inside the table
key set. -/
theorem batch_keys_exact_witness :
    (("Paris") ∈ (fetch_data_in_batches netMix locs2).map Prod.fst) ∧
    ¬ (("Lyon") ∈ (fetch_data_in_batches netMix locs2).map Prod.fst) ∧
    (fetch_data_in_batches netMix locs2).map Prod.fst ⊆ locs2.map Prod.fst := by
  refine ⟨?_, ?_, (batch_keys_exact netMix locs2 ("Paris")).2⟩
  · exact (batch_keys_exact netMix locs2 ("Paris")).1.mpr
      ⟨CoordsEnc.pair 48 2, by decide, sampleBody, rfl, rfl⟩
  · intro hmem
    obtain ⟨enc, henc, d, hd, -⟩ := (batch_keys_exact netMix locs2 ("Lyon")).1.mp hmem
    have henc2 : enc = CoordsEnc.pair 45 4 := by
      simpa [locs2] using henc
    rw [henc2] at hd
    have hnone : fetch_live_weather_data (CoordsEnc.pair 45 4) (netMix ("Lyon")) = none := rfl
    rw [hnone] at hd
    exact Option.noConfusion hd
